import Mathlib

/-!
Shallow embedding of `src/script.js` (client-side JPG → PNG converter).

JS numbers are modelled as follows: integer-valued quantities (byte sizes,
pixel dimensions) are `Nat`; the scale factor in `calculateTargetSize`,
which JS computes in double precision, is modelled by exact rational
arithmetic (`ℚ`).  All claims about the planner are stated under positivity
guards, where the rational model and the double-precision code agree on the
properties at issue.  DOM state touched by the script is modelled as an
explicit record (`UIState`); promise settlement and event callbacks are
modelled as explicit step functions over event sequences.
-/

deriving instance DecidableEq for Except

namespace JpgToPng

/-! ### Validator (`validateFile`, script.js lines 50-62) -/

/-- A candidate file descriptor: `name`, declared media `type`, byte `size`. -/
structure FileDesc where
  name : String
  type : String
  size : Nat
deriving DecidableEq

/-- Result record returned by `validateFile`: `{ ok, reason? }`. -/
structure VResult where
  ok : Bool
  reason : Option String
deriving DecidableEq

/-- `const allowedExt = ['jpg', 'jpeg']`. -/
def allowedExt : List String := ["jpg", "jpeg"]

/-- `const allowedMime = ['image/jpeg']`. -/
def allowedMime : List String := ["image/jpeg"]

/-- `name.split('.').pop()`: for a single-character separator this is exactly
the suffix of `name` after its last `'.'` — the whole name when no dot
occurs, `""` for a trailing dot.  Embedded directly as that suffix
(computed on the character list, structurally). -/
def extOf (name : String) : String :=
  String.mk ((name.toList.reverse.takeWhile (fun c => c ≠ '.')).reverse)

/-- `String.prototype.toLowerCase`, applied per character. -/
def jsToLower (s : String) : String := String.mk (s.toList.map Char.toLower)

/-- `validateFile(file)` from script.js: `null` check, then extension and
media-type allow-list checks combined with `||` on the negations. -/
def validateFile : Option FileDesc → VResult
  | none => { ok := false, reason := some "No file" }
  | some file =>
      let ext := jsToLower (extOf file.name)
      let mime := file.type
      if !(allowedExt.contains ext) || !(allowedMime.contains mime) then
        { ok := false, reason := some "Invalid file. Please upload a JPG or JPEG image." }
      else
        { ok := true, reason := none }

/-! ### Downscale Planner (`calculateTargetSize`, script.js lines 124-131) -/

/-- `const MAX_DIMENSION = 4096`. -/
def MAX_DIMENSION : Nat := 4096

/-- `Math.min(maxDim / width, maxDim / height)` in exact arithmetic. -/
def planScale (width height maxDim : Nat) : ℚ :=
  min ((maxDim : ℚ) / width) ((maxDim : ℚ) / height)

/-- `calculateTargetSize(width, height, maxDim = MAX_DIMENSION)`:
identity when both dimensions fit, otherwise
`(Math.max(1, Math.floor(width*scale)), Math.max(1, Math.floor(height*scale)))`. -/
def calculateTargetSize (width height : Nat) (maxDim : Nat := MAX_DIMENSION) : Nat × Nat :=
  if width ≤ maxDim ∧ height ≤ maxDim then (width, height)
  else
    let scale := planScale width height maxDim
    (max 1 (⌊(width : ℚ) * scale⌋).toNat, max 1 (⌊(height : ℚ) * scale⌋).toNat)

/-! ### Byte-size formatting (`formatBytes`, script.js lines 15-19) -/

/-- JS `Number.prototype.toFixed(1)` for the nonnegative rationals produced by
`formatBytes`: round to nearest tenth, ties toward the larger value. -/
def toFixed1 (q : ℚ) : String :=
  let n := ⌊q * 10 + 1/2⌋
  toString (n / 10) ++ "." ++ toString (n % 10)

/-- JS `Number.prototype.toFixed(2)` for the nonnegative rationals produced by
`formatBytes`: round to nearest hundredth, ties toward the larger value. -/
def toFixed2 (q : ℚ) : String :=
  let n := ⌊q * 100 + 1/2⌋
  let frac := n % 100
  toString (n / 100) ++ "." ++ (if frac < 10 then "0" else "") ++ toString frac

/-- `formatBytes(bytes)` from script.js. -/
def formatBytes (bytes : Nat) : String :=
  if bytes < 1024 then toString bytes ++ " B"
  else if bytes < 1024 * 1024 then toFixed1 ((bytes : ℚ) / 1024) ++ " KB"
  else toFixed2 ((bytes : ℚ) / (1024 * 1024)) ++ " MB"

/-! ### UI state (module-level variables and the DOM fields script.js writes)

`currentObjectUrl` / preview `src` hold object URLs; URL identity is modelled
by a counter `nextUrl` incremented at each `URL.createObjectURL` call, so that
state equality also certifies that no new object URL was allocated. -/

structure UIState where
  /-- `currentFile` module variable. -/
  currentFile : Option FileDesc
  /-- `currentObjectUrl` module variable (`none` = `null` / revoked). -/
  currentObjectUrl : Option Nat
  /-- Next fresh object URL returned by `URL.createObjectURL`. -/
  nextUrl : Nat
  /-- `errorMsg.textContent`. -/
  errorMsg : String
  /-- `fileInfo.textContent`. -/
  fileInfoText : String
  /-- Whether `fileInfo` carries `aria-hidden="true"`. -/
  fileInfoAriaHidden : Bool
  /-- `previewImg.src` (`none` = `''`). -/
  previewSrc : Option Nat
  /-- `previewImg.alt` (`none` = attribute removed). -/
  previewAlt : Option String
  /-- `previewWrap.hidden`. -/
  previewHidden : Bool
  /-- `detailName.textContent`. -/
  detailName : String
  /-- `detailSize.textContent`. -/
  detailSize : String
  /-- `convertBtn.disabled`. -/
  convertDisabled : Bool
  /-- Whether `resetBtn` carries `aria-disabled="true"`. -/
  resetAriaDisabled : Bool
  /-- `resetBtn.disabled`. -/
  resetDisabled : Bool
  /-- `fileInput.value`. -/
  fileInputValue : String
  /-- `loader.hidden`. -/
  loaderHidden : Bool
deriving DecidableEq

/-- `showError(message)` (script.js lines 38-41). -/
def showError (message : String) (s : UIState) : UIState :=
  { s with errorMsg := message, fileInfoAriaHidden := true }

/-- `clearError()` (script.js lines 44-47). -/
def clearError (s : UIState) : UIState :=
  { s with errorMsg := "", fileInfoAriaHidden := false }

/-- `cleanupPreview()` (script.js lines 65-75): revoke and null the object
URL, blank the preview image and details, hide the preview region. -/
def cleanupPreview (s : UIState) : UIState :=
  { s with currentObjectUrl := none, previewSrc := none, previewAlt := none,
           previewHidden := true, detailName := "", detailSize := "" }

/-- `showPreview(file)` (script.js lines 78-88). -/
def showPreview (file : FileDesc) (s : UIState) : UIState :=
  let s1 := clearError (cleanupPreview s)
  let url := s1.nextUrl
  { s1 with nextUrl := s1.nextUrl + 1,
            currentObjectUrl := some url, previewSrc := some url,
            previewAlt := some file.name, detailName := file.name,
            detailSize := formatBytes file.size, previewHidden := false }

/-- `resetUI()` (script.js lines 192-201). -/
def resetUI (s : UIState) : UIState :=
  let s1 := cleanupPreview s
  let s2 := clearError { s1 with currentFile := none, fileInputValue := "" }
  { s2 with fileInfoText := "No file selected", convertDisabled := true,
            resetAriaDisabled := true, loaderHidden := true }

/-- The duplicate-selection test of `handleFiles`:
`currentFile && file.name === currentFile.name && file.size === currentFile.size`. -/
def sameFile (cf : Option FileDesc) (f : FileDesc) : Bool :=
  match cf with
  | none => false
  | some c => f.name == c.name && f.size == c.size

/-- `handleFiles(files)` (script.js lines 219-238): empty guard, `files[0]`,
duplicate name+size early return, validation with `showError` on reject,
otherwise store the file, show the preview and enable conversion. -/
def handleFiles (files : List FileDesc) (s : UIState) : UIState :=
  match files with
  | [] => s
  | file :: _ =>
      if sameFile s.currentFile file then s
      else
        let valid := validateFile (some file)
        if valid.ok then
          let s1 := showPreview file { s with currentFile := some file }
          { s1 with fileInfoText := "Ready to convert", convertDisabled := false,
                    resetAriaDisabled := false }
        else
          showError (valid.reason.getD "") s

/-- The `Empty`-state UI established by `init()` (script.js lines 316-323),
with all modelled fields at their initial document values. -/
def initState : UIState :=
  { currentFile := none, currentObjectUrl := none, nextUrl := 0,
    errorMsg := "", fileInfoText := "No file selected", fileInfoAriaHidden := false,
    previewSrc := none, previewAlt := none, previewHidden := true,
    detailName := "", detailSize := "", convertDisabled := true,
    resetAriaDisabled := true, resetDisabled := false,
    fileInputValue := "", loaderHidden := true }

/-! ### Image Loader (`loadImageFromFile`, script.js lines 91-121)

The decode-vs-timeout race is modelled as a step function over the three
callback events that can fire: the `setTimeout` handler, `img.onload`, and
`img.onerror`.  Promise settlement follows JS semantics: every call of
`resolve`/`reject` is counted, but only the first one changes the promise
state. -/

inductive LoaderEvent
  /-- The `setTimeout(..., LOAD_TIMEOUT_MS)` handler fires. -/
  | timeoutFire
  /-- `img.onload` fires (decode completed). -/
  | imgOnload
  /-- `img.onerror` fires (decode failed). -/
  | imgOnerror
deriving DecidableEq

structure LoaderState where
  /-- The `timedOut` flag. -/
  timedOut : Bool
  /-- The timeout `to` is pending (not yet fired and not cleared). -/
  timerActive : Bool
  /-- The transient object URL `tmpUrl` has not been revoked. -/
  tmpUrlLive : Bool
  /-- Promise state: `none` = pending; `Except.ok` = resolved with the image,
  `Except.error` = rejected with the given message. -/
  settled : Option (Except String Unit)
  /-- How many times `resolve` or `reject` has been invoked. -/
  settleCalls : Nat
deriving DecidableEq

/-- State at entry of the `Promise` executor, after `setTimeout` is armed. -/
def initLoader : LoaderState :=
  { timedOut := false, timerActive := true, tmpUrlLive := true,
    settled := none, settleCalls := 0 }

/-- A `resolve`/`reject` invocation: counted always, state changed only if
the promise is still pending (JS promises settle at most once). -/
def settleWith (r : Except String Unit) (s : LoaderState) : LoaderState :=
  { s with settleCalls := s.settleCalls + 1,
           settled := match s.settled with | none => some r | some r0 => some r0 }

/-- One callback firing, transcribed from `loadImageFromFile`:
the timeout handler sets `timedOut`, revokes `tmpUrl` and rejects with
`"Image load timed out."`; `onload`/`onerror` return immediately when
`timedOut` is set, otherwise clear the timeout, revoke `tmpUrl` and
resolve / reject with `"Failed to read image data."`.  A timeout that was
already fired or cleared cannot fire again. -/
def loaderStep (s : LoaderState) (e : LoaderEvent) : LoaderState :=
  match e with
  | .timeoutFire =>
      if s.timerActive then
        settleWith (.error "Image load timed out.")
          { s with timedOut := true, timerActive := false, tmpUrlLive := false }
      else s
  | .imgOnload =>
      if s.timedOut then s
      else settleWith (.ok ()) { s with timerActive := false, tmpUrlLive := false }
  | .imgOnerror =>
      if s.timedOut then s
      else settleWith (.error "Failed to read image data.")
        { s with timerActive := false, tmpUrlLive := false }

/-! ### Rasterizer/Encoder (`convertImageToPng`, script.js lines 154-172)

The ordering claims about the returned promise are about which primitive
effects the `toBlob` callback (and the surrounding `try`/`catch`) performs in
which order, so the three execution paths through that code are embedded as
traces of primitive actions.  `reactionsRun` marks the earliest point at
which promise reactions (`.then`/`await` continuations) can execute: in
single-threaded JS that is only after the synchronous callback code has
finished. -/

inductive EncodeAction
  /-- A `resolve(blob)` or `reject(err)` call with its outcome. -/
  | settleCall (outcome : Except String Unit)
  /-- `ctx.clearRect(0, 0, canvas.width, canvas.height)`. -/
  | clearRect
  /-- `canvas.width = canvas.height = 0`. -/
  | zeroDims
  /-- Promise reactions run (strictly after the synchronous code). -/
  | reactionsRun
deriving DecidableEq

inductive EncodePath
  /-- `toBlob` delivered a non-null blob. -/
  | blobOk
  /-- `toBlob` delivered `null` (encoder failure). -/
  | blobNull
  /-- `canvas.toBlob(...)` itself threw synchronously, message `emsg`. -/
  | toBlobThrows (emsg : String)

/-- The order of primitive actions on each path, transcribed from the
`return new Promise((resolve, reject) => { try { canvas.toBlob((blob) => ...`
block of `convertImageToPng`: in the callback, `resolve`/`reject` is called
first and the canvas is cleaned up afterwards; in the `catch` branch the
canvas is cleaned up first and `reject(err)` called afterwards. -/
def encodeTrace : EncodePath → List EncodeAction
  | .blobOk =>
      [.settleCall (.ok ()), .clearRect, .zeroDims, .reactionsRun]
  | .blobNull =>
      [.settleCall (.error "Conversion failed (no output)."), .clearRect, .zeroDims,
       .reactionsRun]
  | .toBlobThrows emsg =>
      [.clearRect, .zeroDims, .settleCall (.error emsg), .reactionsRun]

/-- Recognizes a `resolve`/`reject` call. -/
def isSettleCall : EncodeAction → Bool
  | .settleCall _ => true
  | _ => false

/-- Recognizes the `clearRect` release action. -/
def isClearRect : EncodeAction → Bool
  | .clearRect => true
  | _ => false

/-- Recognizes the dimension-zeroing release action. -/
def isZeroDims : EncodeAction → Bool
  | .zeroDims => true
  | _ => false

/-- Recognizes the point where promise reactions first run. -/
def isReactionsRun : EncodeAction → Bool
  | .reactionsRun => true
  | _ => false

/-- Index of the first `resolve`/`reject` call in a trace. -/
def settleIdx (t : List EncodeAction) : Nat := t.findIdx isSettleCall

/-- Index of the `clearRect` release action in a trace. -/
def clearRectIdx (t : List EncodeAction) : Nat := t.findIdx isClearRect

/-- Index of the dimension-zeroing release action in a trace. -/
def zeroDimsIdx (t : List EncodeAction) : Nat := t.findIdx isZeroDims

/-- Index of the point where promise reactions first run. -/
def reactionsIdx (t : List EncodeAction) : Nat := t.findIdx isReactionsRun

/-! ### Concrete fixtures used by witnesses and counterexamples -/

/-- A valid JPEG selection. -/
def fSel : FileDesc := ⟨"a.jpg", "image/jpeg", 100⟩

/-- An invalid file (wrong media type) with the same name and byte size
as `fSel`. -/
def fBad : FileDesc := ⟨"a.jpg", "application/pdf", 100⟩

/-- The `Ready` state reached from `initState` by selecting `fSel`. -/
def readyA : UIState := handleFiles [fSel] initState

/-! ## Helper lemmas -/

lemma contains_allowedExt_iff (x : String) :
    allowedExt.contains x = true ↔ x ∈ ["jpg", "jpeg"] := List.elem_iff

lemma contains_allowedMime_iff (x : String) :
    allowedMime.contains x = true ↔ x = "image/jpeg" := by
  rw [show (allowedMime.contains x = true) ↔ x ∈ allowedMime from List.elem_iff]
  simp [allowedMime]

/-- `validateFile` on a present file, unfolded to its top-level conditional. -/
lemma validateFile_some (f : FileDesc) :
    validateFile (some f)
      = if (!(allowedExt.contains (jsToLower (extOf f.name)))
            || !(allowedMime.contains f.type)) = true
        then ⟨false, some "Invalid file. Please upload a JPG or JPEG image."⟩
        else ⟨true, none⟩ := rfl

/-- If validation of a present file fails, the reason is the invalid-file
message. -/
lemma validateFile_reason_of_not_ok (f : FileDesc)
    (hinv : (validateFile (some f)).ok = false) :
    validateFile (some f)
      = ⟨false, some "Invalid file. Please upload a JPG or JPEG image."⟩ := by
  by_cases hc : (!(allowedExt.contains (jsToLower (extOf f.name)))
      || !(allowedMime.contains f.type)) = true
  · rw [validateFile_some, if_pos hc]
  · rw [validateFile_some, if_neg hc] at hinv
    exact absurd hinv (by simp)

/-- A submission whose head passes the duplicate name+size test is a no-op. -/
lemma handleFiles_same_noop (s : UIState) (f : FileDesc)
    (hsame : sameFile s.currentFile f = true) : handleFiles [f] s = s := by
  simp [handleFiles, hsame]

/-- One axis of the downscale branch: bounds for `max 1 ⌊n * s⌋.toNat`. -/
lemma axisFit (n : Nat) (s : ℚ) (hn : 0 < n) (hs0 : 0 < s) (hs1 : s < 1)
    (hcap : (n : ℚ) * s ≤ 4096) :
    max 1 (⌊(n : ℚ) * s⌋).toNat ≤ 4096 ∧
    1 ≤ max 1 (⌊(n : ℚ) * s⌋).toNat ∧
    max 1 (⌊(n : ℚ) * s⌋).toNat ≤ n ∧
    |((max 1 (⌊(n : ℚ) * s⌋).toNat : Nat) : ℚ) - n * s| ≤ 1 := by
  have hn' : (0 : ℚ) < n := by exact_mod_cast hn
  have hns : (0 : ℚ) ≤ (n : ℚ) * s := by positivity
  have hfl0 : 0 ≤ ⌊(n : ℚ) * s⌋ := Int.floor_nonneg.mpr hns
  have hfl4096 : ⌊(n : ℚ) * s⌋ ≤ 4096 := by
    have h := Int.floor_le_floor hcap
    simpa using h
  have hfltn : ⌊(n : ℚ) * s⌋ < (n : ℤ) := by
    rw [Int.floor_lt]
    calc (n : ℚ) * s < (n : ℚ) * 1 := by
          exact mul_lt_mul_of_pos_left hs1 hn'
      _ = ((n : ℤ) : ℚ) := by push_cast; ring
  refine ⟨?_, le_max_left _ _, ?_, ?_⟩
  · exact max_le (by norm_num) (Int.toNat_le.mpr hfl4096)
  · exact max_le hn (Int.toNat_le.mpr hfltn.le)
  · by_cases hone : 1 ≤ ⌊(n : ℚ) * s⌋
    · have h1n : 1 ≤ (⌊(n : ℚ) * s⌋).toNat := (Int.le_toNat hfl0).mpr hone
      rw [max_eq_right h1n]
      have htn : (((⌊(n : ℚ) * s⌋).toNat : Nat) : ℚ) = ((⌊(n : ℚ) * s⌋ : ℤ) : ℚ) := by
        exact_mod_cast Int.toNat_of_nonneg hfl0
      rw [abs_le, htn]
      have hlo := Int.sub_one_lt_floor ((n : ℚ) * s)
      have hhi := Int.floor_le ((n : ℚ) * s)
      constructor <;> linarith
    · push_neg at hone
      have h0 : ⌊(n : ℚ) * s⌋ = 0 := le_antisymm (by omega) hfl0
      have hlt1 : (n : ℚ) * s < 1 := by
        have h := Int.lt_floor_add_one ((n : ℚ) * s)
        rw [h0] at h
        simpa using h
      have hmax : max 1 (⌊(n : ℚ) * s⌋).toNat = 1 := by
        rw [h0]
        rfl
      rw [hmax, abs_le]
      push_cast
      constructor <;> linarith

/-- A fully-timed-out loader state absorbs every further event. -/
lemma loaderStep_fixed (s : LoaderState) (ht : s.timedOut = true)
    (ha : s.timerActive = false) (e : LoaderEvent) : loaderStep s e = s := by
  cases e <;> simp [loaderStep, ht, ha]

/-- Folding any event list over a fully-timed-out state is the identity. -/
lemma loaderFold_fixed (es : List LoaderEvent) (s : LoaderState)
    (ht : s.timedOut = true) (ha : s.timerActive = false) :
    es.foldl loaderStep s = s := by
  induction es with
  | nil => rfl
  | cons e es ih => rw [List.foldl_cons, loaderStep_fixed s ht ha e, ih]

/-! ## Claim theorems -/

/-- Claim C1: `validateFile` rejects a missing descriptor with reason
`"No file"`; rejects any present descriptor whose lower-cased extension (the
suffix after the final dot) is not in `{jpg, jpeg}` or whose declared media
type is not exactly `"image/jpeg"`, with the invalid-file reason; and accepts
exactly when both checks pass. -/
theorem validator_characterization (file : Option FileDesc) :
    (file = none → validateFile file = ⟨false, some "No file"⟩) ∧
    (∀ f, file = some f →
      ((jsToLower (extOf f.name) ∉ ["jpg", "jpeg"] ∨ f.type ≠ "image/jpeg") →
        validateFile file
          = ⟨false, some "Invalid file. Please upload a JPG or JPEG image."⟩) ∧
      ((jsToLower (extOf f.name) ∈ ["jpg", "jpeg"] ∧ f.type = "image/jpeg") →
        validateFile file = ⟨true, none⟩)) := by
  refine ⟨?_, ?_⟩
  · rintro rfl
    rfl
  · rintro f rfl
    refine ⟨?_, ?_⟩
    · intro hbad
      have hc : (!(allowedExt.contains (jsToLower (extOf f.name)))
          || !(allowedMime.contains f.type)) = true := by
        rcases hbad with hb | hb
        · have hfalse : allowedExt.contains (jsToLower (extOf f.name)) = false := by
            rw [Bool.eq_false_iff]
            intro hmem
            exact hb ((contains_allowedExt_iff _).mp hmem)
          rw [hfalse]
          simp
        · have hfalse : allowedMime.contains f.type = false := by
            rw [Bool.eq_false_iff]
            intro hmem
            exact hb ((contains_allowedMime_iff _).mp hmem)
          rw [hfalse]
          simp
      rw [validateFile_some, if_pos hc]
    · rintro ⟨h1, h2⟩
      have hc : (!(allowedExt.contains (jsToLower (extOf f.name)))
          || !(allowedMime.contains f.type)) = false := by
        rw [(contains_allowedExt_iff _).mpr h1, (contains_allowedMime_iff _).mpr h2]
        rfl
      rw [validateFile_some, if_neg (by rw [hc]; simp)]

/-- Witness for C1: `"photo.JPG"` with media type `"image/jpeg"` is accepted. -/
theorem validator_characterization_witness :
    validateFile (some ⟨"photo.JPG", "image/jpeg", 500000⟩) = ⟨true, none⟩ :=
  ((validator_characterization (some ⟨"photo.JPG", "image/jpeg", 500000⟩)).2 _
    rfl).2 ⟨by decide, rfl⟩

/-- Claim C2: for positive dimensions with `max w h > 4096`, the planned
dimensions are each at most 4096, at least 1, never exceed the inputs, and
each axis is within 1 of the exactly-scaled value `input * scale` for the
common scale `min (4096/w) (4096/h)` (so the aspect ratio is preserved up to
a floor-rounding error of at most 1 pixel per axis). -/
theorem plan_downscale_bounds (w h : Nat) (hw : 0 < w) (hh : 0 < h)
    (hbig : 4096 < max w h) :
    (calculateTargetSize w h 4096).1 ≤ 4096 ∧
    (calculateTargetSize w h 4096).2 ≤ 4096 ∧
    1 ≤ (calculateTargetSize w h 4096).1 ∧
    1 ≤ (calculateTargetSize w h 4096).2 ∧
    (calculateTargetSize w h 4096).1 ≤ w ∧
    (calculateTargetSize w h 4096).2 ≤ h ∧
    |((calculateTargetSize w h 4096).1 : ℚ) - (w : ℚ) * planScale w h 4096| ≤ 1 ∧
    |((calculateTargetSize w h 4096).2 : ℚ) - (h : ℚ) * planScale w h 4096| ≤ 1 := by
  have hcond : ¬(w ≤ 4096 ∧ h ≤ 4096) := by
    intro hboth
    exact absurd (max_le hboth.1 hboth.2) (not_le.mpr hbig)
  have hpair : calculateTargetSize w h 4096
      = (max 1 (⌊(w : ℚ) * planScale w h 4096⌋).toNat,
         max 1 (⌊(h : ℚ) * planScale w h 4096⌋).toNat) := by
    unfold calculateTargetSize
    rw [if_neg hcond]
  have hw' : (0 : ℚ) < w := by exact_mod_cast hw
  have hh' : (0 : ℚ) < h := by exact_mod_cast hh
  have hqdef : planScale w h 4096 = min ((4096 : ℚ) / w) ((4096 : ℚ) / h) := by
    unfold planScale
    push_cast
    rfl
  have hle_w : planScale w h 4096 ≤ (4096 : ℚ) / w := by
    rw [hqdef]
    exact min_le_left _ _
  have hle_h : planScale w h 4096 ≤ (4096 : ℚ) / h := by
    rw [hqdef]
    exact min_le_right _ _
  have hs0 : 0 < planScale w h 4096 := by
    rw [hqdef]
    exact lt_min (by positivity) (by positivity)
  have hs1 : planScale w h 4096 < 1 := by
    rcases lt_max_iff.mp hbig with hcase | hcase
    · refine lt_of_le_of_lt hle_w ?_
      rw [div_lt_one hw']
      exact_mod_cast hcase
    · refine lt_of_le_of_lt hle_h ?_
      rw [div_lt_one hh']
      exact_mod_cast hcase
  have hcapw : (w : ℚ) * planScale w h 4096 ≤ 4096 := by
    calc (w : ℚ) * planScale w h 4096 ≤ (w : ℚ) * ((4096 : ℚ) / w) :=
          mul_le_mul_of_nonneg_left hle_w hw'.le
      _ = 4096 := by field_simp
  have hcaph : (h : ℚ) * planScale w h 4096 ≤ 4096 := by
    calc (h : ℚ) * planScale w h 4096 ≤ (h : ℚ) * ((4096 : ℚ) / h) :=
          mul_le_mul_of_nonneg_left hle_h hh'.le
      _ = 4096 := by field_simp
  obtain ⟨a1, a2, a3, a4⟩ := axisFit w (planScale w h 4096) hw hs0 hs1 hcapw
  obtain ⟨b1, b2, b3, b4⟩ := axisFit h (planScale w h 4096) hh hs0 hs1 hcaph
  rw [hpair]
  exact ⟨a1, b1, a2, b2, a3, b3, a4, b4⟩

/-- Witness for C2 at dimensions 8192×2048. -/
theorem plan_downscale_bounds_witness :
    (calculateTargetSize 8192 2048 4096).1 ≤ 4096 ∧
    (calculateTargetSize 8192 2048 4096).2 ≤ 4096 ∧
    1 ≤ (calculateTargetSize 8192 2048 4096).1 ∧
    1 ≤ (calculateTargetSize 8192 2048 4096).2 ∧
    (calculateTargetSize 8192 2048 4096).1 ≤ 8192 ∧
    (calculateTargetSize 8192 2048 4096).2 ≤ 2048 ∧
    |((calculateTargetSize 8192 2048 4096).1 : ℚ)
        - ((8192 : ℕ) : ℚ) * planScale 8192 2048 4096| ≤ 1 ∧
    |((calculateTargetSize 8192 2048 4096).2 : ℚ)
        - ((2048 : ℕ) : ℚ) * planScale 8192 2048 4096| ≤ 1 :=
  plan_downscale_bounds 8192 2048 (by decide) (by decide) (by decide)

/-- Claim C3: when both dimensions are at most 4096 the planner is the
identity. -/
theorem plan_identity (w h : Nat) (hw : w ≤ 4096) (hh : h ≤ 4096) :
    calculateTargetSize w h 4096 = (w, h) := by
  unfold calculateTargetSize
  rw [if_pos ⟨hw, hh⟩]

/-- Witness for C3 at dimensions 3000×2000. -/
theorem plan_identity_witness : calculateTargetSize 3000 2000 4096 = (3000, 2000) :=
  plan_identity 3000 2000 (by decide) (by decide)

/-- Claim C4: for natural dimensions 8000×4000 with maximum dimension 4096,
the planner returns exactly (4096, 2048). -/
theorem plan_huge_example : calculateTargetSize 8000 4000 4096 = (4096, 2048) := by
  norm_num [calculateTargetSize, planScale]
  exact ⟨rfl, rfl⟩

/-- Claim C5: if the timeout fires before decode completes, the load promise
is rejected with `"Image load timed out."`, `resolve`/`reject` is invoked
exactly once over the whole run, and every later decode completion or decode
error is ignored (the settled state never changes). -/
theorem loader_timeout_first_settles_once (es : List LoaderEvent) :
    (es.foldl loaderStep (loaderStep initLoader .timeoutFire)).settled
      = some (Except.error "Image load timed out.") ∧
    (es.foldl loaderStep (loaderStep initLoader .timeoutFire)).settleCalls = 1 := by
  have h1 : loaderStep initLoader .timeoutFire
      = { timedOut := true, timerActive := false, tmpUrlLive := false,
          settled := some (Except.error "Image load timed out."), settleCalls := 1 } := rfl
  rw [h1, loaderFold_fixed es _ rfl rfl]
  exact ⟨rfl, rfl⟩

/-- Counterexample to C6: on the successful-encoding path the `resolve(blob)`
call comes strictly before both release actions (`clearRect` and zeroing the
dimensions), so the release does not happen before the promise settles. -/
theorem encode_success_settles_before_release :
    encodeTrace .blobOk
      = [.settleCall (.ok ()), .clearRect, .zeroDims, .reactionsRun] ∧
    settleIdx (encodeTrace .blobOk) < clearRectIdx (encodeTrace .blobOk) ∧
    settleIdx (encodeTrace .blobOk) < zeroDimsIdx (encodeTrace .blobOk) := by
  decide

/-- Amended C6: on every execution path of the encode step the raster
surface's pixel storage is cleared and its dimensions zeroed, exactly one
`resolve`/`reject` call is made, and the release happens before any promise
reaction can run; on the `toBlob`-callback paths, however, the
`resolve`/`reject` call itself precedes the release. -/
theorem encode_release_on_every_path (p : EncodePath) :
    EncodeAction.clearRect ∈ encodeTrace p ∧
    EncodeAction.zeroDims ∈ encodeTrace p ∧
    clearRectIdx (encodeTrace p) < reactionsIdx (encodeTrace p) ∧
    zeroDimsIdx (encodeTrace p) < reactionsIdx (encodeTrace p) ∧
    ((encodeTrace p).filter isSettleCall).length = 1 := by
  cases p <;>
    simp [encodeTrace, clearRectIdx, zeroDimsIdx, reactionsIdx, isSettleCall,
      isClearRect, isZeroDims, isReactionsRun, List.findIdx, List.findIdx.go]

/-- Counterexample to C7: an invalid file (wrong media type) whose name and
byte size match the held selection is silently ignored by `handleFiles`:
no error message is set, contradicting the claim that every invalid
submission while a selection is held sets an error message. -/
theorem invalid_duplicate_sets_no_error :
    (validateFile (some fBad)).ok = false ∧
    readyA.currentFile = some fSel ∧
    handleFiles [fBad] readyA = readyA ∧
    (handleFiles [fBad] readyA).errorMsg = "" := by
  decide

/-- Amended C7: for every invalid file whose name or byte size differs from
the held selection's, `handleFiles` only sets the error message and hides the
file info from assistive technology; the stored file, object URL, preview
fields and convert-enabled state are unchanged. -/
theorem invalid_nonduplicate_preserves_selection (s : UIState) (f cf : FileDesc)
    (hcf : s.currentFile = some cf)
    (hdiff : ¬(f.name = cf.name ∧ f.size = cf.size))
    (hinv : (validateFile (some f)).ok = false) :
    handleFiles [f] s
      = showError "Invalid file. Please upload a JPG or JPEG image." s ∧
    (handleFiles [f] s).currentFile = s.currentFile ∧
    (handleFiles [f] s).currentObjectUrl = s.currentObjectUrl ∧
    (handleFiles [f] s).nextUrl = s.nextUrl ∧
    (handleFiles [f] s).previewSrc = s.previewSrc ∧
    (handleFiles [f] s).previewHidden = s.previewHidden ∧
    (handleFiles [f] s).detailName = s.detailName ∧
    (handleFiles [f] s).detailSize = s.detailSize ∧
    (handleFiles [f] s).convertDisabled = s.convertDisabled ∧
    (handleFiles [f] s).errorMsg = "Invalid file. Please upload a JPG or JPEG image." ∧
    (handleFiles [f] s).fileInfoAriaHidden = true := by
  have hsame : sameFile s.currentFile f = false := by
    rw [hcf, Bool.eq_false_iff]
    intro htrue
    simp only [sameFile, Bool.and_eq_true, beq_iff_eq] at htrue
    exact hdiff htrue
  have hval := validateFile_reason_of_not_ok f hinv
  have hmain : handleFiles [f] s
      = showError "Invalid file. Please upload a JPG or JPEG image." s := by
    simp only [handleFiles, hsame, Bool.false_eq_true, if_false]
    rw [hval]
    rfl
  refine ⟨hmain, ?_, ?_, ?_, ?_, ?_, ?_, ?_, ?_, ?_, ?_⟩ <;> rw [hmain] <;> rfl

/-- Witness for amended C7: submitting `"doc.pdf"` while `fSel` is held sets
the invalid-file message and keeps the selection. -/
theorem invalid_nonduplicate_preserves_selection_witness :
    (handleFiles [⟨"doc.pdf", "application/pdf", 50⟩] readyA).errorMsg
      = "Invalid file. Please upload a JPG or JPEG image." ∧
    (handleFiles [⟨"doc.pdf", "application/pdf", 50⟩] readyA).currentFile
      = readyA.currentFile := by
  have h := invalid_nonduplicate_preserves_selection readyA
    ⟨"doc.pdf", "application/pdf", 50⟩ fSel (by decide) (by decide) (by decide)
  exact ⟨h.2.2.2.2.2.2.2.2.2.1, h.2.1⟩

/-- Claim C8: submitting a file whose name and byte size equal the current
selection's is a strict no-op for `handleFiles` — the whole UI state,
including the object-URL allocation counter (so no preview regeneration), is
unchanged. -/
theorem duplicate_selection_noop (s : UIState) (f cf : FileDesc)
    (hcf : s.currentFile = some cf) (hn : f.name = cf.name) (hs : f.size = cf.size) :
    handleFiles [f] s = s := by
  apply handleFiles_same_noop
  rw [hcf]
  simp [sameFile, hn, hs]

/-- Witness for C8: re-submitting `fSel` in the `Ready` state is a no-op. -/
theorem duplicate_selection_noop_witness : handleFiles [fSel] readyA = readyA :=
  duplicate_selection_noop readyA fSel fSel (by decide) rfl rfl

/-- Claim C9: `resetUI` is idempotent and always yields the `Empty` state —
no selection, no object URL, no preview, no error message, convert
disabled. -/
theorem reset_idempotent_empty (s : UIState) :
    resetUI (resetUI s) = resetUI s ∧
    (resetUI s).currentFile = none ∧
    (resetUI s).currentObjectUrl = none ∧
    (resetUI s).previewSrc = none ∧
    (resetUI s).previewHidden = true ∧
    (resetUI s).errorMsg = "" ∧
    (resetUI s).fileInfoText = "No file selected" ∧
    (resetUI s).convertDisabled = true ∧
    (resetUI s).loaderHidden = true :=
  ⟨rfl, rfl, rfl, rfl, rfl, rfl, rfl, rfl, rfl⟩

/-- Claim C10: the duplicate name+size check runs before validation, so a
submission matching the current selection's name and size returns with no
effect even when the file would fail validation: no error message appears
and no state field changes. -/
theorem duplicate_check_precedes_validation (s : UIState) (f cf : FileDesc)
    (hcf : s.currentFile = some cf) (hn : f.name = cf.name) (hs : f.size = cf.size)
    (_hinv : (validateFile (some f)).ok = false) :
    handleFiles [f] s = s ∧ (handleFiles [f] s).errorMsg = s.errorMsg := by
  have hnoop : handleFiles [f] s = s := by
    apply handleFiles_same_noop
    rw [hcf]
    simp [sameFile, hn, hs]
  exact ⟨hnoop, by rw [hnoop]⟩

/-- Witness for C10: the invalid duplicate `fBad` is silently ignored. -/
theorem duplicate_check_precedes_validation_witness :
    handleFiles [fBad] readyA = readyA ∧
    (handleFiles [fBad] readyA).errorMsg = readyA.errorMsg :=
  duplicate_check_precedes_validation readyA fBad fSel (by decide) rfl rfl (by decide)

end JpgToPng
